import Mathlib

/-!
Shallow embedding of the story-bot core (`src/bot.py`) and verification of
the specification's claims about it.

Conventions of the embedding:
* Python dict-shaped `context.user_data` becomes the record `Session` with
  optional fields; an absent key is `none`.
* String primitives are given structurally recursive definitions over the
  character list so that concrete instances evaluate: `str.strip()` is
  `pyStrip`, `str.split('\n')` is `pySplitLines`, `str.split(':', 1)` is
  `splitColon1`, `str.replace('TEMPLATE','')` is `replTEMPLATE`,
  `str.startswith('TEMPLATE')` is `startsWithTEMPLATE`, `' '.join(xs)` is
  `joinSpace`, `str.split()` (whitespace words) is `pySplitWs`.
* The Python dict `templates` (string keys, insertion-ordered, update in
  place) becomes the association list `TmplDict` with `dictSet`/`dictGet`.
* The fallible remote call is abstracted by an explicit outcome argument
  (`Except String String` for the story calls, `HttpOutcome` for the
  low-level `call_llm` model), the standard shallow embedding of an
  external collaborator.
-/

/-- One conversation turn: the Python dict `{'role': ..., 'content': ...}`. -/
structure Turn where
  role : String
  content : String
deriving DecidableEq, Repr

/-- A story seed: the Python dict `{'title': ..., 'premise': ...}`. -/
structure Tmpl where
  title : String
  premise : String
deriving DecidableEq, Repr

/-- The `templates` dict of `parse_templates`: string keys in insertion
order, values `Tmpl`. -/
abbrev TmplDict := List (String × Tmpl)

/-- Python dict update `d[k] = v`: overwrite in place if the key exists,
otherwise append at the end (insertion order). -/
def dictSet (d : TmplDict) (k : String) (v : Tmpl) : TmplDict :=
  match d with
  | [] => [(k, v)]
  | (k', v') :: rest => if k' = k then (k, v) :: rest else (k', v') :: dictSet rest k v

/-- Python dict read `d[k]` (as an option). -/
def dictGet (d : TmplDict) (k : String) : Option Tmpl :=
  match d with
  | [] => none
  | (k', v) :: rest => if k' = k then some v else dictGet rest k

/-- Python `' '.join(xs)`. -/
def joinSpace : List String → String
  | [] => ""
  | [x] => x
  | x :: xs => x ++ " " ++ joinSpace xs

/-- Python `str.strip()` on the character list: drop leading and trailing
whitespace.  (Python strips a slightly larger set of Unicode whitespace
characters; on the ASCII whitespace relevant here the two agree.) -/
def pyStripList (cs : List Char) : List Char :=
  (((cs.dropWhile Char.isWhitespace).reverse).dropWhile Char.isWhitespace).reverse

/-- Python `str.strip()`. -/
def pyStrip (s : String) : String :=
  String.mk (pyStripList s.data)

/-- Python `str.split('\n')` on the character list: every newline is a
separator, so `""` splits to `[""]`. -/
def splitLinesList : List Char → List (List Char)
  | [] => [[]]
  | '\n' :: cs => [] :: splitLinesList cs
  | c :: cs =>
    match splitLinesList cs with
    | [] => [[c]]
    | l :: ls => (c :: l) :: ls

/-- Python `str.split('\n')`. -/
def pySplitLines (s : String) : List String :=
  (splitLinesList s.data).map String.mk

/-- Python `line.split(':', 1)` on the character list: the text before the
first colon and everything after it; `none` when there is no colon (Python
would return a one-element list, so `len(parts) == 2` is false). -/
def splitColon1List : List Char → Option (List Char × List Char)
  | [] => none
  | ':' :: cs => some ([], cs)
  | c :: cs =>
    match splitColon1List cs with
    | some (a, b) => some (c :: a, b)
    | none => none

/-- Python `line.split(':', 1)` when it yields two parts. -/
def splitColon1 (s : String) : Option (String × String) :=
  match splitColon1List s.data with
  | some (a, b) => some (String.mk a, String.mk b)
  | none => none

/-- Python `s.replace('TEMPLATE', '')`: delete every (non-overlapping,
leftmost-first) occurrence of `TEMPLATE`. -/
def replTEMPLATEList : List Char → List Char
  | 'T' :: 'E' :: 'M' :: 'P' :: 'L' :: 'A' :: 'T' :: 'E' :: rest => replTEMPLATEList rest
  | c :: cs => c :: replTEMPLATEList cs
  | [] => []

/-- Python `s.replace('TEMPLATE', '')`. -/
def replTEMPLATE (s : String) : String :=
  String.mk (replTEMPLATEList s.data)

/-- Python `s.startswith('TEMPLATE')`. -/
def startsWithTEMPLATE (s : String) : Bool :=
  ("TEMPLATE".data).isPrefixOf s.data

/-- Python truthiness of the `current_template` variable (an optional
string): `None` and the empty string are falsy. -/
def optStrTruthy : Option String → Bool
  | none => false
  | some s => s ≠ ""

/-- Loop state of `parse_templates`: the accumulated dict, the
`current_template` key, and the `current_premise` line buffer. -/
structure PState where
  templates : TmplDict
  cur : Option String
  premiseBuf : List String
deriving DecidableEq, Repr

/-- The flush step of `parse_templates`
(`if current_template and current_premise: templates[current_template] = ...`):
rewrite the current entry, keeping its stored title and joining the buffered
lines with single spaces, then stripping.  The inner `none` branch is
unreachable in the source (the key is inserted into the dict at the moment
`current_template` is set and never removed). -/
def flushState (st : PState) : TmplDict :=
  if optStrTruthy st.cur ∧ st.premiseBuf ≠ [] then
    match st.cur with
    | some key =>
      match dictGet st.templates key with
      | some t => dictSet st.templates key ⟨t.title, pyStrip (joinSpace st.premiseBuf)⟩
      | none => st.templates
    | none => st.templates
  else st.templates

/-- The marker classification done in the `TEMPLATE` branch of the loop:
for a line that (after stripping) starts with `TEMPLATE` and contains a
colon, the dict key `template_<n>` (from `parts[0].replace('TEMPLATE','').strip()`)
and the stripped title `parts[1].strip()`. -/
def markerOf (rawLine : String) : Option (String × String) :=
  let line := pyStrip rawLine
  if startsWithTEMPLATE line then
    match splitColon1 line with
    | some (p0, p1) => some ("template_" ++ pyStrip (replTEMPLATE p0), pyStrip p1)
    | none => none
  else none

/-- Whether a raw line enters the `line.startswith('TEMPLATE')` branch. -/
def isMarkerLine (rawLine : String) : Bool :=
  startsWithTEMPLATE (pyStrip rawLine)

/-- One iteration of the `for line in lines` loop of `parse_templates`. -/
def parseStep (st : PState) (rawLine : String) : PState :=
  let line := pyStrip rawLine
  if isMarkerLine rawLine then
    let ts := flushState st
    match markerOf rawLine with
    | some (key, title) =>
      { templates := dictSet ts key ⟨title, ""⟩, cur := some key, premiseBuf := [] }
    | none => { st with templates := ts }
  else if line ≠ "" ∧ optStrTruthy st.cur then
    { st with premiseBuf := st.premiseBuf ++ [line] }
  else st

/-- The whole loop of `parse_templates` over the (already split) lines,
including the trailing "Add last template" flush. -/
def parseLines (lines : List String) : TmplDict :=
  let st := lines.foldl parseStep ⟨[], none, []⟩
  flushState st

/-- The fixed generic fallback returned by `parse_templates` itself when it
collected fewer than 3 entries. -/
def fallbackTemplates : TmplDict :=
  [("template_1", ⟨"The Beginning", "Your adventure starts here..."⟩),
   ("template_2", ⟨"New Horizons", "A new challenge appears..."⟩),
   ("template_3", ⟨"The Journey", "An epic tale unfolds..."⟩)]

/-- Function `parse_templates(response)`: strip the response, split on newlines, run
the loop, and substitute the fixed fallback when fewer than 3 dict entries
were collected. -/
def parse_templates (response : String) : TmplDict :=
  let t := parseLines (pySplitLines (pyStrip response))
  if 3 ≤ t.length then t else fallbackTemplates

/-- Python `str.title()` on the single-word genre keys: first letter
upper-cased, the rest lower-cased. -/
def pyTitleWord (s : String) : String :=
  match s.data with
  | [] => ""
  | c :: cs => String.mk (c.toUpper :: cs.map Char.toLower)

/-- The genre-specific fallback of `generate_story_templates`, used when the
generation call (or the parse) raises. -/
def genreFallback (genre : String) : TmplDict :=
  [("template_1", ⟨pyTitleWord genre ++ " Adventure", "A thrilling journey begins..."⟩),
   ("template_2", ⟨"The " ++ pyTitleWord genre ++ " Mystery", "Something strange is happening..."⟩),
   ("template_3", ⟨pyTitleWord genre ++ " Quest", "An epic quest awaits..."⟩)]

/-- Function `generate_story_templates(genre)` with the outcome of the inner
`call_llm` made explicit: on success parse the response (the parse itself
never raises), on any exception return the genre-specific fallback. -/
def generate_story_templates (genre : String) (llm : Except String String) : TmplDict :=
  match llm with
  | .ok response => parse_templates response
  | .error _ => genreFallback genre

/-- The per-user `context.user_data` dict: optional fields, `none` meaning
the key is absent. -/
structure Session where
  genre : Option String := none
  mode : Option String := none
  character_name : Option String := none
  character_traits : Option String := none
  character_background : Option String := none
  template : Option Tmpl := none
  templates : Option TmplDict := none
  story_history : Option (List Turn) := none
  last_failed_message : Option String := none
deriving DecidableEq, Repr

/-- The state after `context.user_data.clear()`: every key absent. -/
def emptySession : Session := {}

/-- Python `context.user_data.get('story_history', [])`. -/
def Session.historyD (s : Session) : List Turn :=
  s.story_history.getD []

/-- Function `get_story_progress`: the number of user-role turns in the history. -/
def get_story_progress (s : Session) : Nat :=
  (s.historyD.filter (fun m => m.role = "user")).length

/-- The rollback step shared by `generate_story` and `retry_last`
(`if story_history and story_history[-1]['role'] == 'user': pop()`). -/
def popIfLastUser (h : List Turn) : List Turn :=
  match h.getLast? with
  | some t => if t.role = "user" then h.dropLast else h
  | none => h

/-- Result of one `generate_story` turn, as observed by the user:
the story text with its displayed turn ordinal, or the error message of the
failure reply. -/
inductive GenOutcome
  | success (text : String) (turn : Nat)
  | failure (msg : String)
deriving DecidableEq, Repr

/-- Handler `generate_story(update, context)` restricted to its session mutations and
outcome, with the result of the inner `call_llm` call passed explicitly
(`Except.ok text` when the remote call returns `text`, `Except.error msg`
when it raises an exception with message `msg`).  Steps, in source order:
initialize `story_history`/`genre`/`mode` if `story_history` is absent;
append the user turn; compute the displayed turn ordinal; then either append
the assistant turn (success) or pop the just-appended user turn and store
`last_failed_message` (failure). -/
def generate_story (s : Session) (userMsg : String) (llm : Except String String) :
    Session × GenOutcome :=
  let s0 :=
    if s.story_history = none then
      { s with story_history := some [], genre := some "adventure", mode := some "guided" }
    else s
  let h1 := s0.historyD ++ [⟨"user", userMsg⟩]
  let s1 := { s0 with story_history := some h1 }
  let turn := get_story_progress s1
  match llm with
  | .ok text =>
    ({ s1 with story_history := some (h1 ++ [⟨"assistant", text⟩]) }, .success text turn)
  | .error e =>
    ({ s1 with story_history := some (popIfLastUser h1),
               last_failed_message := some userMsg }, .failure e)

/-- Result of `retry_last`, as observed by the user. -/
inductive RetryOutcome
  | nothingToRetry
  | success (text : String) (turn : Nat)
  | failure (msg : String)
deriving DecidableEq, Repr

/-- Handler `retry_last(update, context)` with the `call_llm` outcome explicit.
`if not last_message` is Python falsiness: absent key or empty string.
Otherwise re-append the stored message, and on success append the assistant
turn and pop `last_failed_message`; on renewed failure pop the user turn
again, leaving `last_failed_message` set. -/
def retry_last (s : Session) (llm : Except String String) : Session × RetryOutcome :=
  match s.last_failed_message with
  | none => (s, .nothingToRetry)
  | some m =>
    if m = "" then (s, .nothingToRetry)
    else
      let h1 := s.historyD ++ [⟨"user", m⟩]
      let s1 := { s with story_history := some h1 }
      match llm with
      | .ok text =>
        let s2 := { s1 with story_history := some (h1 ++ [⟨"assistant", text⟩]),
                            last_failed_message := none }
        (s2, .success text (get_story_progress s2))
      | .error e =>
        ({ s1 with story_history := some (popIfLastUser h1) }, .failure e)

/-- The conversation state returned by a character-creation handler:
`WAITING_NAME` / `WAITING_TRAITS` / `WAITING_BACKGROUND` /
`ConversationHandler.END`. -/
inductive CharStep
  | waitingName
  | waitingTraits
  | waitingBackground
  | ended
deriving DecidableEq, Repr

/-- Handler `receive_name`: strip the message text; reject length outside 2..30 by
re-prompting the same step with the session untouched; on success store the
name and advance to the traits step. -/
def receive_name (s : Session) (text : String) : Session × CharStep :=
  let name := pyStrip text
  if name.length < 2 ∨ 30 < name.length then (s, .waitingName)
  else ({ s with character_name := some name }, .waitingTraits)

/-- Handler `receive_traits`: reject stripped length < 3, else store and advance. -/
def receive_traits (s : Session) (text : String) : Session × CharStep :=
  let traits := pyStrip text
  if traits.length < 3 then (s, .waitingTraits)
  else ({ s with character_traits := some traits }, .waitingBackground)

/-- Handler `receive_background`: reject stripped length < 10, else store the
background, initialize `story_history := []`, and end the conversation. -/
def receive_background (s : Session) (text : String) : Session × CharStep :=
  let background := pyStrip text
  if background.length < 10 then (s, .waitingBackground)
  else ({ s with character_background := some background,
                 story_history := some [] }, .ended)

/-- User-visible response of the new-story handlers. -/
inductive NewStoryResponse
  | confirmPrompt
  | genreSelection
  | storyPreserved
deriving DecidableEq, Repr

/-- Handler `confirm_new_story`: `context.user_data.clear()` then show the genre
list. -/
def confirm_new_story (_s : Session) : Session × NewStoryResponse :=
  (emptySession, .genreSelection)

/-- Handler `new_story`: with an active story (`story_history` present and
non-empty) only ask for confirmation, mutating nothing; otherwise fall
through to `confirm_new_story` directly. -/
def new_story (s : Session) : Session × NewStoryResponse :=
  let has_story := s.story_history.isSome ∧ s.historyD.length > 0
  if has_story then (s, .confirmPrompt)
  else confirm_new_story s

/-- Handler `cancel_new_story`: reply only, no session mutation. -/
def cancel_new_story (s : Session) : Session × NewStoryResponse :=
  (s, .storyPreserved)

/-- Python `'='*50`. -/
def eqBar : String := String.mk (List.replicate 50 '=')

/-- Python `'-'*50`. -/
def dashBar : String := String.mk (List.replicate 50 '-')

/-- Python `GENRES.get(genre, 'Story')`. -/
def GENRES_get (g : String) : String :=
  if g = "fantasy" then "🐉 Fantasy"
  else if g = "scifi" then "🚀 Sci-Fi"
  else if g = "mystery" then "🔍 Mystery"
  else if g = "horror" then "👻 Horror"
  else if g = "romance" then "💕 Romance"
  else if g = "adventure" then "⚔️ Adventure"
  else "Story"

/-- Python `STORY_MODES.get(mode, {}).get('name', 'Story')`. -/
def STORY_MODES_name (m : String) : String :=
  if m = "guided" then "📖 Tell Me a Story"
  else if m = "adventure" then "🎮 Adventure Mode"
  else if m = "cowrite" then "✍️ Co-Write"
  else "Story"

/-- Python `s.split()`: whitespace-separated words, empty pieces dropped. -/
def pySplitWs (s : String) : List String :=
  (s.split Char.isWhitespace).filter (fun w => w ≠ "")

/-- The `for i, msg in enumerate(story_history, 1)` body of `save_story`:
each turn labeled by role (user turns as `YOU (Turn (i+1)//2)`), followed by
the dash separator rule. -/
def turnsBlock : Nat → List Turn → String
  | _, [] => ""
  | i, msg :: rest =>
    (if msg.role = "user" then
       "🧑 YOU (Turn " ++ toString ((i + 1) / 2) ++ "):\n" ++ msg.content ++ "\n\n"
     else
       "📖 STORY:\n" ++ msg.content ++ "\n\n")
      ++ dashBar ++ "\n\n" ++ turnsBlock (i + 1) rest

/-- The full `story_text` document assembled by `save_story`: header block
(genre label, mode label, turn count), optional character block, the
role-labeled turns with separators, and the trailing word-count summary. -/
def buildStoryText (s : Session) : String :=
  let genre := s.genre.getD "adventure"
  let mode := STORY_MODES_name (s.mode.getD "guided")
  let turn_count := get_story_progress s
  let header :=
    eqBar ++ "\n" ++ "  " ++ GENRES_get genre ++ " - " ++ mode ++ "\n"
      ++ "  Turns: " ++ toString turn_count ++ "\n" ++ eqBar ++ "\n\n"
  let charBlock :=
    match s.character_name with
    | some name =>
      "PROTAGONIST: " ++ name ++ "\n"
        ++ "TRAITS: " ++ s.character_traits.getD "N/A" ++ "\n"
        ++ "BACKGROUND: " ++ s.character_background.getD "N/A" ++ "\n\n"
        ++ dashBar ++ "\n\n"
    | none => ""
  let word_count := (s.historyD.map (fun m => (pySplitWs m.content).length)).sum
  header ++ charBlock ++ turnsBlock 1 s.historyD
    ++ "\n" ++ eqBar ++ "\n"
    ++ "Total words: " ++ toString word_count ++ "\n"
    ++ "Generated by StoryBot\n" ++ eqBar

/-- Handler `save_story(update, context)`: with no `story_history` key or an empty
history it only replies and saves nothing; otherwise it sends the document
`story_text.encode('utf-8')`.  The session is returned unchanged alongside
the (optional) sent bytes. -/
def save_story (s : Session) : Session × Option (List UInt8) :=
  if s.story_history.isSome ∧ s.historyD.length ≠ 0 then
    (s, some (buildStoryText s).toUTF8.toList)
  else (s, none)

/-- JSON values, for the response body of the remote generation call. -/
inductive Json
  | null
  | str (s : String)
  | num (n : Int)
  | arr (xs : List Json)
  | obj (fields : List (String × Json))

/-- Association lookup in a JSON object. -/
def jsonLookup (fields : List (String × Json)) (k : String) : Option Json :=
  match fields with
  | [] => none
  | (k', v) :: rest => if k' = k then some v else jsonLookup rest k

/-- The kinds of Python exceptions a subscript expression can raise. -/
inductive PyKind
  | keyError
  | indexError
  | typeError
deriving DecidableEq, Repr

/-- Python `j[k]` for a string key `k`: `KeyError` on a dict without the
key, `TypeError` on a list, string, number or `None`. -/
def pyGetStr (j : Json) (k : String) : Except PyKind Json :=
  match j with
  | .obj fs =>
    match jsonLookup fs k with
    | some v => .ok v
    | none => .error .keyError
  | _ => .error .typeError

/-- Python `j[i]` for an integer index `i`: `IndexError` past the end of a
list or string (a string yields its `i`-th character as a 1-char string),
`KeyError` on a JSON dict (its keys are strings, so the integer key is
absent), `TypeError` otherwise. -/
def pyGetIdx (j : Json) (i : Nat) : Except PyKind Json :=
  match j with
  | .arr xs =>
    match xs.get? i with
    | some v => .ok v
    | none => .error .indexError
  | .str s =>
    match s.toList.get? i with
    | some c => .ok (.str (String.mk [c]))
    | none => .error .indexError
  | .obj _ => .error .keyError
  | _ => .error .typeError

/-- The extraction `result['choices'][0]['message']['content']` of
`call_llm`, with the first exception it raises. -/
def extract_content (j : Json) : Except PyKind Json :=
  pyGetStr j "choices" >>= fun c =>
    pyGetIdx c 0 >>= fun e =>
      pyGetStr e "message" >>= fun m =>
        pyGetStr m "content"

/-- Outcome of the `requests.post(...)` round trip in `call_llm`:
`requests.exceptions.Timeout`; any other `requests.exceptions.RequestException`
(connection failure, or the `HTTPError` from `raise_for_status`) with its
string form; or an HTTP 2xx response whose decoded JSON body is `body`. -/
inductive HttpOutcome
  | timeout
  | requestError (msg : String)
  | ok (body : Json)

/-- How `call_llm` terminates: a returned content value, a raised
`Exception(msg)` (the single exception type it converts all handled
failures into), or an exception of kind `k` escaping uncaught. -/
inductive LlmOutcome
  | ok (content : Json)
  | raisedException (msg : String)
  | uncaught (k : PyKind)

/-- Function `call_llm`: the `try/except` ladder.  `Timeout` and `RequestException`
are converted to `Exception` with fixed messages; of the exceptions the
extraction can raise, only `KeyError` is caught
(`except KeyError: raise Exception("Unexpected response format from AI.")`). -/
def call_llm (o : HttpOutcome) : LlmOutcome :=
  match o with
  | .timeout => .raisedException "Request timed out. Please try again."
  | .requestError m => .raisedException ("Connection error: " ++ m)
  | .ok body =>
    match extract_content body with
    | .ok v => .ok v
    | .error .keyError => .raisedException "Unexpected response format from AI."
    | .error k => .uncaught k

/-- Popping after appending a user turn restores the original history: the
appended turn is last and has role `user`, so the conditional pop fires. -/
theorem popIfLastUser_append_user (h : List Turn) (msg : String) :
    popIfLastUser (h ++ [⟨"user", msg⟩]) = h := by
  simp [popIfLastUser, List.getLast?_concat, List.dropLast_concat]

/-- C2: when the generation call fails, `generate_story` leaves the history
exactly as it was before the call (the just-appended user turn is rolled
back), stores the submitted text in `last_failed_message`, and replies with
a failure carrying the error message. -/
theorem generate_story_failure_rolls_back (s : Session) (userMsg e : String) :
    ((generate_story s userMsg (.error e)).1).historyD = s.historyD
    ∧ ((generate_story s userMsg (.error e)).1).last_failed_message = some userMsg
    ∧ (generate_story s userMsg (.error e)).2 = .failure e := by
  cases hs : s.story_history with
  | none =>
    have h0 : popIfLastUser [⟨"user", userMsg⟩] = [] := popIfLastUser_append_user [] userMsg
    simp [generate_story, hs, Session.historyD, h0]
  | some h => simp [generate_story, hs, Session.historyD, popIfLastUser_append_user]

/-- C1 (amended): when the generation call succeeds, `generate_story` grows
the history by exactly 2 entries (the user turn then the assistant turn) and
replies with the story text and the post-append user-turn ordinal — but it
leaves `last_failed_message` exactly as it was (the success path never
clears it; only a successful `retry_last` does). -/
theorem generate_story_success_appends_two (s : Session) (userMsg text : String) :
    ((generate_story s userMsg (.ok text)).1).historyD
        = s.historyD ++ [⟨"user", userMsg⟩, ⟨"assistant", text⟩]
    ∧ ((generate_story s userMsg (.ok text)).1).last_failed_message
        = s.last_failed_message
    ∧ (generate_story s userMsg (.ok text)).2
        = .success text (get_story_progress s + 1) := by
  cases hs : s.story_history with
  | none => simp [generate_story, hs, Session.historyD, get_story_progress]
  | some h => simp [generate_story, hs, Session.historyD, get_story_progress]

/-- C1 (counterexample): a session left with a pending retry message by a
previous failure still has it after a later successful `generate_story`
turn — the claim that success clears `pendingRetryContent` is false. -/
theorem generate_story_success_stale_pending_cx :
    ((generate_story
        { emptySession with story_history := some [], last_failed_message := some "old message" }
        "hi" (.ok "tale")).1).last_failed_message ≠ none := by
  decide

/-- C10: when `story_history` is absent, a free-text story message makes
`generate_story` unconditionally set `genre := "adventure"` and
`mode := "guided"` before appending the turn, whatever the session already
held and however the generation call ends. -/
theorem generate_story_absent_history_overwrites_setup (s : Session) (userMsg : String)
    (llm : Except String String) (h : s.story_history = none) :
    ((generate_story s userMsg llm).1).genre = some "adventure"
    ∧ ((generate_story s userMsg llm).1).mode = some "guided" := by
  cases llm <;> simp [generate_story, h]

/-- C10 witness: a session where the user already chose genre `horror` and
mode `cowrite` during setup but no action initialized `story_history`; one
successful story message overwrites both choices. -/
theorem generate_story_absent_history_overwrites_setup_witness :
    ({ emptySession with genre := some "horror", mode := some "cowrite" } : Session).story_history
        = none
    ∧ ((generate_story { emptySession with genre := some "horror", mode := some "cowrite" }
        "go" (.ok "tale")).1).genre = some "adventure"
    ∧ ((generate_story { emptySession with genre := some "horror", mode := some "cowrite" }
        "go" (.ok "tale")).1).mode = some "guided" :=
  ⟨rfl,
   (generate_story_absent_history_overwrites_setup _ "go" (.ok "tale") rfl).1,
   (generate_story_absent_history_overwrites_setup _ "go" (.ok "tale") rfl).2⟩

/-- C5: `retry_last` with `last_failed_message` absent or empty answers
"nothing to retry" and returns the session completely unchanged. -/
theorem retry_last_no_pending_is_noop (s : Session) (llm : Except String String)
    (h : s.last_failed_message = none ∨ s.last_failed_message = some "") :
    retry_last s llm = (s, .nothingToRetry) := by
  rcases h with h | h <;> simp [retry_last, h]

/-- C5 witness: the fresh session has no pending retry content, and
`retry_last` on it is a no-op. -/
theorem retry_last_no_pending_is_noop_witness :
    retry_last emptySession (.ok "text") = (emptySession, .nothingToRetry) :=
  retry_last_no_pending_is_noop emptySession (.ok "text") (Or.inl rfl)

/-- C8: on a session with non-empty history, `new_story` only asks for
confirmation and mutates nothing; `confirm_new_story` performs the atomic
full reset (`user_data.clear()`, every field cleared at once) and returns to
genre selection; `cancel_new_story` leaves every field unchanged. -/
theorem new_story_confirmation_protocol (s : Session) (h : List Turn)
    (hh : s.story_history = some h) (hne : h ≠ []) :
    new_story s = (s, .confirmPrompt)
    ∧ confirm_new_story s = (emptySession, .genreSelection)
    ∧ cancel_new_story s = (s, .storyPreserved) := by
  refine ⟨?_, rfl, rfl⟩
  have hpos : 0 < h.length := List.length_pos.mpr hne
  simp [new_story, Session.historyD, hh, hpos]

/-- C8 witness: a concrete session holding one exchange. -/
theorem new_story_confirmation_protocol_witness :
    new_story { emptySession with story_history := some [⟨"user", "hi"⟩] }
        = ({ emptySession with story_history := some [⟨"user", "hi"⟩] }, .confirmPrompt)
    ∧ confirm_new_story { emptySession with story_history := some [⟨"user", "hi"⟩] }
        = (emptySession, .genreSelection)
    ∧ cancel_new_story { emptySession with story_history := some [⟨"user", "hi"⟩] }
        = ({ emptySession with story_history := some [⟨"user", "hi"⟩] }, .storyPreserved) :=
  new_story_confirmation_protocol _ [⟨"user", "hi"⟩] rfl (by decide)

/-- C9: the exported document is a pure function of the session state:
`save_story` does not mutate the session, so exporting twice in a row
yields byte-for-byte identical document bytes. -/
theorem save_story_deterministic (s : Session) :
    (save_story s).1 = s ∧ (save_story (save_story s).1).2 = (save_story s).2 := by
  have h1 : (save_story s).1 = s := by
    unfold save_story
    split <;> rfl
  exact ⟨h1, by rw [h1]⟩


/-- C7: character-creation validation boundaries on the stripped text —
name length 1 and 31 rejected, 2 and 30 accepted; traits length 2 rejected,
3 accepted; background length 9 rejected, 10 accepted — and, in general,
every call either rejects (re-prompting the same step with the session
unchanged, exactly when the length is out of bounds) or accepts (storing
the stripped value and advancing). -/
theorem character_validation_boundaries (s : Session) :
    receive_name s "A" = (s, .waitingName)
    ∧ receive_name s "Ab" = ({ s with character_name := some "Ab" }, .waitingTraits)
    ∧ receive_name s "abcdefghijklmnopqrstuvwxyzabcd"
        = ({ s with character_name := some "abcdefghijklmnopqrstuvwxyzabcd" }, .waitingTraits)
    ∧ receive_name s "abcdefghijklmnopqrstuvwxyzabcde" = (s, .waitingName)
    ∧ receive_traits s "ab" = (s, .waitingTraits)
    ∧ receive_traits s "abc" = ({ s with character_traits := some "abc" }, .waitingBackground)
    ∧ receive_background s "abcdefghi" = (s, .waitingBackground)
    ∧ receive_background s "abcdefghij"
        = ({ s with character_background := some "abcdefghij",
                    story_history := some [] }, .ended)
    ∧ (∀ t : String,
        (receive_name s t = (s, .waitingName)
            ∧ ((pyStrip t).length < 2 ∨ 30 < (pyStrip t).length))
        ∨ (receive_name s t = ({ s with character_name := some (pyStrip t) }, .waitingTraits)
            ∧ 2 ≤ (pyStrip t).length ∧ (pyStrip t).length ≤ 30))
    ∧ (∀ t : String,
        (receive_traits s t = (s, .waitingTraits) ∧ (pyStrip t).length < 3)
        ∨ (receive_traits s t
              = ({ s with character_traits := some (pyStrip t) }, .waitingBackground)
            ∧ 3 ≤ (pyStrip t).length))
    ∧ (∀ t : String,
        (receive_background s t = (s, .waitingBackground) ∧ (pyStrip t).length < 10)
        ∨ (receive_background s t
              = ({ s with character_background := some (pyStrip t),
                          story_history := some [] }, .ended)
            ∧ 10 ≤ (pyStrip t).length)) := by
  refine ⟨rfl, rfl, rfl, rfl, rfl, rfl, rfl, rfl, ?_, ?_, ?_⟩
  · intro t
    by_cases h : (pyStrip t).length < 2 ∨ 30 < (pyStrip t).length
    · exact Or.inl ⟨by simp [receive_name, h], h⟩
    · refine Or.inr ⟨by simp [receive_name, h], ?_⟩
      push_neg at h
      exact ⟨h.1, h.2⟩
  · intro t
    by_cases h : (pyStrip t).length < 3
    · exact Or.inl ⟨by simp [receive_traits, h], h⟩
    · exact Or.inr ⟨by simp [receive_traits, h], Nat.le_of_not_lt h⟩
  · intro t
    by_cases h : (pyStrip t).length < 10
    · exact Or.inl ⟨by simp [receive_background, h], h⟩
    · exact Or.inr ⟨by simp [receive_background, h], Nat.le_of_not_lt h⟩

/-- C4 (counterexample): an HTTP-success response whose body is
`{"choices": []}` — an unexpected shape — makes the extraction raise
`IndexError`, which the `try/except` ladder of `call_llm` (catching only
`Timeout`, `RequestException` and `KeyError`) lets escape unhandled,
instead of surfacing it as the single converted exception. -/
theorem call_llm_empty_choices_escapes_cx :
    call_llm (.ok (.obj [("choices", .arr [])])) = .uncaught .indexError := rfl

/-- C4 (amended): timeout, transport/connection failure (including HTTP
error statuses) and missing-key response shapes are each caught inside
`call_llm` and surfaced as the one converted exception type with a
human-readable message; but a response shape failing with `IndexError`
(empty `choices` list) or `TypeError` (wrongly typed component) escapes
unhandled. -/
theorem call_llm_error_taxonomy (m : String) (j : Json) :
    call_llm .timeout = .raisedException "Request timed out. Please try again."
    ∧ call_llm (.requestError m) = .raisedException ("Connection error: " ++ m)
    ∧ (extract_content j = .error .keyError →
        call_llm (.ok j) = .raisedException "Unexpected response format from AI.")
    ∧ (extract_content j = .error .indexError → call_llm (.ok j) = .uncaught .indexError)
    ∧ (extract_content j = .error .typeError → call_llm (.ok j) = .uncaught .typeError) := by
  refine ⟨rfl, rfl, ?_, ?_, ?_⟩ <;> intro h <;> simp [call_llm, h]

/-- C4 witness: the three shape-dependent branches at concrete bodies — an
empty object (missing key, caught), a body whose `choices` list is empty
(`IndexError`, escapes), and a top-level list body (`TypeError`, escapes). -/
theorem call_llm_error_taxonomy_witness :
    call_llm (.ok (.obj [])) = .raisedException "Unexpected response format from AI."
    ∧ call_llm (.ok (.obj [("choices", .arr [])])) = .uncaught .indexError
    ∧ call_llm (.ok (.arr [])) = .uncaught .typeError :=
  ⟨(call_llm_error_taxonomy "" (.obj [])).2.2.1 rfl,
   (call_llm_error_taxonomy "" (.obj [("choices", .arr [])])).2.2.2.1 rfl,
   (call_llm_error_taxonomy "" (.arr [])).2.2.2.2 rfl⟩

/-- C3 (counterexample): the raw text `TEMPLATE 1: A\nTEMPLATE 2: B\nTEMPLATE 3: C`
parses to zero completed (title, non-empty-premise) seeds — fewer than 3 —
yet the set delivered to the flow by `generate_story_templates` is the three
empty-premise entries found, not the fixed fallback: markers with empty
bodies still count toward the parser's own `len(templates) >= 3` check, and
no caller-side substitution happens. -/
theorem templates_empty_premise_delivered_cx :
    ((parseLines (pySplitLines (pyStrip "TEMPLATE 1: A\nTEMPLATE 2: B\nTEMPLATE 3: C"))).filter
        (fun kv => kv.2.premise ≠ "")).length < 3
    ∧ generate_story_templates "fantasy" (.ok "TEMPLATE 1: A\nTEMPLATE 2: B\nTEMPLATE 3: C")
        = [("template_1", ⟨"A", ""⟩), ("template_2", ⟨"B", ""⟩), ("template_3", ⟨"C", ""⟩)]
    ∧ generate_story_templates "fantasy" (.ok "TEMPLATE 1: A\nTEMPLATE 2: B\nTEMPLATE 3: C")
        ≠ fallbackTemplates := by
  refine ⟨by decide, by decide, by decide⟩

/-- C3 (amended): the substitution of the fixed 3-seed fallback happens
inside `parse_templates` itself, keyed on the number of collected dict
entries (markers with empty premises included), not on completed seeds and
not in the caller; the caller passes a successful parse through unchanged
and substitutes its own genre-specific fallback only when the generation
call raises. -/
theorem generate_story_templates_routing (response genre e : String) :
    ((3 ≤ (parseLines (pySplitLines (pyStrip response))).length
        ∧ parse_templates response = parseLines (pySplitLines (pyStrip response)))
      ∨ ((parseLines (pySplitLines (pyStrip response))).length < 3
        ∧ parse_templates response = fallbackTemplates))
    ∧ generate_story_templates genre (.ok response) = parse_templates response
    ∧ generate_story_templates genre (.error e) = genreFallback genre := by
  refine ⟨?_, rfl, rfl⟩
  by_cases h : 3 ≤ (parseLines (pySplitLines (pyStrip response))).length
  · exact Or.inl ⟨h, by simp [parse_templates, h]⟩
  · exact Or.inr ⟨Nat.lt_of_not_le h, by simp [parse_templates, h]⟩

/-- The stripped non-empty lines of a body block, in order: exactly the
lines the loop accumulates into `current_premise` while no new marker
appears. -/
def bodyLines : List String → List String
  | [] => []
  | l :: b => if pyStrip l = "" then bodyLines b else pyStrip l :: bodyLines b

/-- The premise a body block contributes: its stripped non-empty lines
joined with single spaces (and stripped, as the flush does). -/
def premOf (b : List String) : String :=
  pyStrip (joinSpace (bodyLines b))

/-- Setting a key to the value it already holds leaves the dict unchanged. -/
theorem dictSet_self (d : TmplDict) (k : String) (v : Tmpl)
    (h : dictGet d k = some v) : dictSet d k v = d := by
  induction d with
  | nil => simp [dictGet] at h
  | cons kv rest ih =>
    obtain ⟨k', v'⟩ := kv
    by_cases hk : k' = k
    · subst hk
      simp [dictGet] at h
      simp [dictSet, h]
    · simp [dictGet, hk] at h
      simp [dictSet, hk, ih h]

/-- A line recognized as a marker starts the `TEMPLATE` branch. -/
theorem isMarkerLine_of_markerOf {m k t : String} (h : markerOf m = some (k, t)) :
    isMarkerLine m = true := by
  unfold markerOf at h
  unfold isMarkerLine
  by_cases hs : startsWithTEMPLATE (pyStrip m)
  · exact hs
  · simp [hs] at h

/-- The dict key produced by a marker is non-empty (it starts with
`template_`), hence truthy as `current_template`. -/
theorem markerOf_key_ne_empty {m k t : String} (h : markerOf m = some (k, t)) :
    k ≠ "" := by
  unfold markerOf at h
  by_cases hs : startsWithTEMPLATE (pyStrip m)
  · simp only [hs, if_true] at h
    cases hsp : splitColon1 (pyStrip m) with
    | none => rw [hsp] at h; simp at h
    | some p =>
      obtain ⟨p0, p1⟩ := p
      rw [hsp] at h
      simp only [Option.some.injEq, Prod.mk.injEq] at h
      intro hke
      rw [← h.1] at hke
      have : ("template_" ++ pyStrip (replTEMPLATE p0)).data = ("" : String).data :=
        congrArg String.data hke
      simp [String.data] at this
  · simp [hs] at h

/-- Processing a marker line: flush, then insert the fresh entry and reset
the buffer. -/
theorem parseStep_marker {m k t : String} (st : PState) (h : markerOf m = some (k, t)) :
    parseStep st m = ⟨dictSet (flushState st) k ⟨t, ""⟩, some k, []⟩ := by
  have hp := isMarkerLine_of_markerOf h
  simp [parseStep, hp, h]

/-- Processing a body block with a truthy `current_template`: the dict and
the current key are untouched; the stripped non-empty lines are appended to
the premise buffer. -/
theorem foldl_parseStep_body (b : List String) (st : PState) (k : String)
    (hcur : st.cur = some k) (hk : k ≠ "")
    (hb : ∀ l ∈ b, isMarkerLine l = false) :
    b.foldl parseStep st = { st with premiseBuf := st.premiseBuf ++ bodyLines b } := by
  induction b generalizing st with
  | nil => simp [bodyLines]
  | cons l b ih =>
    have hl : isMarkerLine l = false := hb l (List.mem_cons_self l b)
    have hb' : ∀ l' ∈ b, isMarkerLine l' = false := fun l' hl' => hb l' (List.mem_cons_of_mem l hl')
    rw [List.foldl_cons]
    by_cases he : pyStrip l = ""
    · have hstep : parseStep st l = st := by
        simp [parseStep, hl, he]
      rw [hstep, ih st hcur hb']
      simp [bodyLines, he]
    · have hstep : parseStep st l = { st with premiseBuf := st.premiseBuf ++ [pyStrip l] } := by
        simp [parseStep, hl, he, hcur, optStrTruthy, hk]
      rw [hstep, ih _ (by simp [hcur]) hb']
      simp [bodyLines, he]

/-- Flushing a state whose current entry still has an empty premise writes
the joined body premise into that entry (a no-op when the body had no
non-empty lines, in which case the entry keeps its empty premise, which is
also the joined premise). -/
theorem flushState_body (d : TmplDict) (k t : String) (b : List String)
    (hk : k ≠ "") (hd : dictGet d k = some ⟨t, ""⟩) :
    flushState ⟨d, some k, bodyLines b⟩ = dictSet d k ⟨t, premOf b⟩ := by
  by_cases hb : bodyLines b = []
  · have hp : premOf b = "" := by rw [premOf, hb]; rfl
    rw [hp]
    have : flushState ⟨d, some k, bodyLines b⟩ = d := by
      simp [flushState, hb]
    rw [this, dictSet_self d k ⟨t, ""⟩ hd]
  · simp [flushState, optStrTruthy, hk, hb, hd, premOf]

/-- C6: on well-formed raw text — the stripped text splits into three
marker lines (each recognized as `TEMPLATE <n>: <title>` with distinct
keys) with arbitrary non-marker body blocks after each — `parse_templates`
returns exactly 3 seeds, in order, whose titles are the marker titles and
whose premises are the stripped non-empty body lines joined with single
spaces. -/
theorem parse_templates_well_formed
    (response m1 m2 m3 : String) (b1 b2 b3 : List String)
    (k1 t1 k2 t2 k3 t3 : String)
    (hsplit : pySplitLines (pyStrip response) = m1 :: (b1 ++ m2 :: (b2 ++ m3 :: b3)))
    (hm1 : markerOf m1 = some (k1, t1))
    (hm2 : markerOf m2 = some (k2, t2))
    (hm3 : markerOf m3 = some (k3, t3))
    (hb1 : ∀ l ∈ b1, isMarkerLine l = false)
    (hb2 : ∀ l ∈ b2, isMarkerLine l = false)
    (hb3 : ∀ l ∈ b3, isMarkerLine l = false)
    (h12 : k1 ≠ k2) (h13 : k1 ≠ k3) (h23 : k2 ≠ k3) :
    parse_templates response
      = [(k1, ⟨t1, premOf b1⟩), (k2, ⟨t2, premOf b2⟩), (k3, ⟨t3, premOf b3⟩)] := by
  have hk1 := markerOf_key_ne_empty hm1
  have hk2 := markerOf_key_ne_empty hm2
  have hk3 := markerOf_key_ne_empty hm3
  have s1 : parseStep ⟨[], none, []⟩ m1 = ⟨[(k1, ⟨t1, ""⟩)], some k1, []⟩ := by
    rw [parseStep_marker _ hm1]; rfl
  have s2 : b1.foldl parseStep ⟨[(k1, ⟨t1, ""⟩)], some k1, []⟩
      = ⟨[(k1, ⟨t1, ""⟩)], some k1, bodyLines b1⟩ := by
    simpa using foldl_parseStep_body b1 ⟨[(k1, ⟨t1, ""⟩)], some k1, []⟩ k1 rfl hk1 hb1
  have s3 : parseStep ⟨[(k1, ⟨t1, ""⟩)], some k1, bodyLines b1⟩ m2
      = ⟨[(k1, ⟨t1, premOf b1⟩), (k2, ⟨t2, ""⟩)], some k2, []⟩ := by
    rw [parseStep_marker _ hm2]
    have hf : flushState ⟨[(k1, ⟨t1, ""⟩)], some k1, bodyLines b1⟩
        = [(k1, ⟨t1, premOf b1⟩)] := by
      rw [flushState_body [(k1, ⟨t1, ""⟩)] k1 t1 b1 hk1 (by simp [dictGet])]
      simp [dictSet]
    rw [hf]
    simp [dictSet, h12]
  have s4 : b2.foldl parseStep ⟨[(k1, ⟨t1, premOf b1⟩), (k2, ⟨t2, ""⟩)], some k2, []⟩
      = ⟨[(k1, ⟨t1, premOf b1⟩), (k2, ⟨t2, ""⟩)], some k2, bodyLines b2⟩ := by
    simpa using foldl_parseStep_body b2
      ⟨[(k1, ⟨t1, premOf b1⟩), (k2, ⟨t2, ""⟩)], some k2, []⟩ k2 rfl hk2 hb2
  have s5 : parseStep ⟨[(k1, ⟨t1, premOf b1⟩), (k2, ⟨t2, ""⟩)], some k2, bodyLines b2⟩ m3
      = ⟨[(k1, ⟨t1, premOf b1⟩), (k2, ⟨t2, premOf b2⟩), (k3, ⟨t3, ""⟩)],
         some k3, []⟩ := by
    rw [parseStep_marker _ hm3]
    have hf : flushState ⟨[(k1, ⟨t1, premOf b1⟩), (k2, ⟨t2, ""⟩)], some k2, bodyLines b2⟩
        = [(k1, ⟨t1, premOf b1⟩), (k2, ⟨t2, premOf b2⟩)] := by
      rw [flushState_body [(k1, ⟨t1, premOf b1⟩), (k2, ⟨t2, ""⟩)] k2 t2 b2 hk2
        (by simp [dictGet, h12])]
      simp [dictSet, h12]
    rw [hf]
    simp [dictSet, h13, h23]
  have s6 : b3.foldl parseStep
      ⟨[(k1, ⟨t1, premOf b1⟩), (k2, ⟨t2, premOf b2⟩), (k3, ⟨t3, ""⟩)], some k3, []⟩
      = ⟨[(k1, ⟨t1, premOf b1⟩), (k2, ⟨t2, premOf b2⟩), (k3, ⟨t3, ""⟩)],
         some k3, bodyLines b3⟩ := by
    simpa using foldl_parseStep_body b3
      ⟨[(k1, ⟨t1, premOf b1⟩), (k2, ⟨t2, premOf b2⟩), (k3, ⟨t3, ""⟩)], some k3, []⟩
      k3 rfl hk3 hb3
  have s7 : flushState
      ⟨[(k1, ⟨t1, premOf b1⟩), (k2, ⟨t2, premOf b2⟩), (k3, ⟨t3, ""⟩)],
       some k3, bodyLines b3⟩
      = [(k1, ⟨t1, premOf b1⟩), (k2, ⟨t2, premOf b2⟩), (k3, ⟨t3, premOf b3⟩)] := by
    rw [flushState_body
      [(k1, ⟨t1, premOf b1⟩), (k2, ⟨t2, premOf b2⟩), (k3, ⟨t3, ""⟩)] k3 t3 b3 hk3
      (by simp [dictGet, h13, h23])]
    simp [dictSet, h13, h23]
  have hparse : parseLines (pySplitLines (pyStrip response))
      = [(k1, ⟨t1, premOf b1⟩), (k2, ⟨t2, premOf b2⟩), (k3, ⟨t3, premOf b3⟩)] := by
    rw [hsplit]
    unfold parseLines
    rw [List.foldl_cons, s1, List.foldl_append, s2, List.foldl_cons, s3,
        List.foldl_append, s4, List.foldl_cons, s5, s6, s7]
  unfold parse_templates
  rw [hparse]
  rfl

/-- C6 witness: a concrete well-formed 3-marker text, with a multi-line
first body, a blank line inside the second body, and a one-line third
body. -/
theorem parse_templates_well_formed_witness :
    parse_templates "TEMPLATE 1: The Lost City\nAncient ruins whisper.\nGold calls.\nTEMPLATE 2: Star Run\nA ship flees.\n\nTEMPLATE 3: Mist\nFog rises."
      = [("template_1", ⟨"The Lost City", "Ancient ruins whisper. Gold calls."⟩),
         ("template_2", ⟨"Star Run", "A ship flees."⟩),
         ("template_3", ⟨"Mist", "Fog rises."⟩)] :=
  (parse_templates_well_formed
      "TEMPLATE 1: The Lost City\nAncient ruins whisper.\nGold calls.\nTEMPLATE 2: Star Run\nA ship flees.\n\nTEMPLATE 3: Mist\nFog rises."
      "TEMPLATE 1: The Lost City" "TEMPLATE 2: Star Run" "TEMPLATE 3: Mist"
      ["Ancient ruins whisper.", "Gold calls."] ["A ship flees.", ""] ["Fog rises."]
      "template_1" "The Lost City" "template_2" "Star Run" "template_3" "Mist"
      (by decide) (by decide) (by decide) (by decide)
      (by decide) (by decide) (by decide)
      (by decide) (by decide) (by decide)).trans (by decide)
